import Mathlib

/-!
Shallow embedding of `cmd/golobactl/main.go` from the goloba repository.

The program is a CLI that fans one administrative command (`info`, `attach`,
`detach`, `unlock`) out to every configured goloba API server, one goroutine
per server, and prints each server's result.  We model:

* the structured `api.Info` response type (the `api` package is not part of
  the provided sources; its shape is modelled from the spec, section 6);
* Go's `fmt` left-justified fixed-width formatting and `net.JoinHostPort`;
* the sequence of write calls each per-target goroutine performs, tagged by
  sink (stdout for the report, stderr for `fmt.Fprintf(os.Stderr, ...)`,
  logErr for `ltsvlog.Err(...)`);
* `net/url.QueryEscape` at the byte level, and the query strings built by
  `fmt.Sprintf` in `attachCommand`, `detachCommand` and `unlockCommand`;
* the fan-out itself as a map over the configured target list, with an
  explicit scheduler-driven merge of the goroutines' write sequences to
  reason about interleaving of the shared output sink.
-/

namespace Goloba

/-- Modelled from the spec: the `api` package's `Destination` record (the
`api` package itself is not among the provided sources; field shape follows
spec section 6: address, port, forward, weight, activeConn, inactiveConn,
detached, locked). -/
structure Destination where
  Address : String
  Port : Nat
  Forward : String
  Weight : Int
  ActiveConn : Int
  InactiveConn : Int
  Detached : Bool
  Locked : Bool
  deriving DecidableEq, Repr

/-- Modelled from the spec: the `api` package's `Service` record (protocol,
address, port, schedule, ordered destinations). -/
structure Service where
  Protocol : String
  Address : String
  Port : Nat
  Schedule : String
  Destinations : List Destination
  deriving DecidableEq, Repr

/-- Modelled from the spec: the `api` package's `Info` record, an ordered
sequence of services.  The Go zero value has an empty service list. -/
structure Info where
  Services : List Service
  deriving DecidableEq, Repr

/-- Go `fmt` left-justified width (`%-Ns`, `%-Nd`, `%-Nv`): pad on the right
with spaces up to `w` characters, never truncating. -/
def padRight (s : String) (w : Nat) : String :=
  s ++ String.mk (List.replicate (w - s.length) ' ')

/-- Embedding of Go `net.JoinHostPort`: bracket the host when it contains a
colon, then join host and port with a colon (the colon test is on the host's
character list so that it evaluates by reduction). -/
def joinHostPort (host port : String) : String :=
  if host.data.contains ':' then "[" ++ host ++ "]:" ++ port
  else host ++ ":" ++ port

/-- Go `fmt` `%v` on a `bool`. -/
def boolStr (b : Bool) : String :=
  if b then "true" else "false"

/-- Output sinks the program writes to: `os.Stdout` (the report),
`os.Stderr` (`fmt.Fprintf(os.Stderr, ...)`), and the `ltsvlog` error
logger. -/
inductive Sink where
  | stdout
  | stderr
  | logErr
  deriving DecidableEq, Repr

/-- One write call made by a goroutine: a destination sink and the data
written by that single call. -/
structure WriteEv where
  sink : Sink
  data : String
  deriving DecidableEq, Repr

/-- Concatenation of everything a write sequence sends to stdout, in order. -/
def stdoutOf : List WriteEv → String
  | [] => ""
  | w :: ws =>
    (match w.sink with
     | Sink.stdout => w.data
     | _ => "") ++ stdoutOf ws

/-- Result of `a.httpClient.Get(u)` followed by reading the body: either the
transport fails with some error text, or a body is obtained. -/
inductive TransportResult where
  | failure (msg : String)
  | success (body : String)
  deriving DecidableEq, Repr

/-- The single stderr write `fmt.Fprintf(os.Stderr, "failed to send request; %v\n", err)`
performed when `httpClient.Get` fails. -/
def transportFailWrite (msg : String) : WriteEv :=
  ⟨Sink.stderr, "failed to send request; " ++ msg ++ "\n"⟩

/-- The `ltsvlog.Err` call made when `json.Unmarshal` of an `/info` body
fails. -/
def unmarshalErrLog : WriteEv :=
  ⟨Sink.logErr, "failed to unmarshal JSON response from goloba API server"⟩

/-- First fixed line printed by `infoCommand` for format `text`. -/
def infoHeader1 : String := "Prot LocalAddress:Port Scheduler Flags\n"

/-- Second fixed line (column headers) printed by `infoCommand` for format
`text`. -/
def infoHeader2 : String :=
  "  -> RemoteAddress:Port           Forward Weight ActiveConn InActConn Detached Locked\n"

/-- The service header row `fmt.Printf("%-4s %s:%d %s\n", ...)`. -/
def serviceRow (sr : Service) : String :=
  padRight sr.Protocol 4 ++ " " ++ sr.Address ++ ":" ++ toString sr.Port ++ " "
    ++ sr.Schedule ++ "\n"

/-- One destination row
`fmt.Printf("  -> %-28s %-7s %-6d %-10d %-9d %-8v %v\n", ...)` with
`hostPort := net.JoinHostPort(d.Address, strconv.Itoa(int(d.Port)))`. -/
def destinationRow (d : Destination) : String :=
  "  -> " ++ padRight (joinHostPort d.Address (toString d.Port)) 28 ++ " "
    ++ padRight d.Forward 7 ++ " " ++ padRight (toString d.Weight) 6 ++ " "
    ++ padRight (toString d.ActiveConn) 10 ++ " "
    ++ padRight (toString d.InactiveConn) 9 ++ " "
    ++ padRight (boolStr d.Detached) 8 ++ " " ++ boolStr d.Locked ++ "\n"

/-- Write calls issued for one service inside the `text` branch of
`infoCommand`: one `Printf` for the service row, then one `Printf` per
destination row. -/
def serviceWrites (sr : Service) : List WriteEv :=
  ⟨Sink.stdout, serviceRow sr⟩ :: sr.Destinations.map fun d => ⟨Sink.stdout, destinationRow d⟩

/-- The report rendering of a decoded `Info` for format `text`: header line,
column-header line, then per service its header row followed by one row per
destination. -/
def renderInfoReport (info : Info) : String :=
  infoHeader1 ++ infoHeader2
    ++ String.join (info.Services.map fun sr =>
        serviceRow sr ++ String.join (sr.Destinations.map destinationRow))

/-- Sequence of write calls made by one `infoCommand` goroutine for a given
target.  `parsed` is the result of `json.Unmarshal` on the body: `none` means
the unmarshal failed, in which case the Go code logs the error and continues
with the zero-value `api.Info` (it does not return).  The transport-error
check precedes the format switch, matching the source; a format other than
the exact strings `json` and `text` matches no `case` and prints nothing. -/
def infoTargetWrites (format url : String) (resp : TransportResult)
    (parsed : Option Info) : List WriteEv :=
  match resp with
  | .failure msg => [transportFailWrite msg]
  | .success data =>
    match format with
    | "json" => [⟨Sink.stdout, url ++ ":\n" ++ data ++ "\n"⟩]
    | "text" =>
      (match parsed with
       | none => [unmarshalErrLog]
       | some _ => ([] : List WriteEv))
      ++ ⟨Sink.stdout, url ++ ":\n"⟩
      :: ⟨Sink.stdout, infoHeader1⟩
      :: ⟨Sink.stdout, infoHeader2⟩
      :: ((parsed.getD ⟨[]⟩).Services.flatMap serviceWrites ++ [⟨Sink.stdout, "\n"⟩])
    | _ => []

/-- Write calls made by one `attachCommand` goroutine:
`fmt.Printf("%s:\n%s\n", s.URL, string(data))` on success, the stderr
message on transport failure. -/
def attachTargetWrites (url : String) (resp : TransportResult) : List WriteEv :=
  match resp with
  | .failure msg => [transportFailWrite msg]
  | .success data => [⟨Sink.stdout, url ++ ":\n" ++ data ++ "\n"⟩]

/-- Write calls made by one `detachCommand` goroutine (same emission shape as
`attachCommand`). -/
def detachTargetWrites (url : String) (resp : TransportResult) : List WriteEv :=
  match resp with
  | .failure msg => [transportFailWrite msg]
  | .success data => [⟨Sink.stdout, url ++ ":\n" ++ data ++ "\n"⟩]

/-- Write calls made by one `unlockCommand` goroutine:
`io.Copy(os.Stdout, resp.Body)` copies the raw body to stdout with no label
and no added newline. -/
def unlockTargetWrites (_url : String) (resp : TransportResult) : List WriteEv :=
  match resp with
  | .failure msg => [transportFailWrite msg]
  | .success data => [⟨Sink.stdout, data⟩]

/-- Fan-out of `infoCommand`: one goroutine per configured API server (the
`for _, s := range a.config.APIServers` loop with `wg.Add(1)` / `go func()`
and the final `wg.Wait()`), each producing its own write sequence.  `world`
gives each target's transport result and `parsed` the unmarshal result of its
body. -/
def infoCommand (targets : List String) (format : String)
    (world : String → TransportResult) (parsed : String → Option Info) :
    List (List WriteEv) :=
  targets.map fun t => infoTargetWrites format t (world t) (parsed t)

/-- Fan-out of `attachCommand` over the configured API servers. -/
def attachCommand (targets : List String) (world : String → TransportResult) :
    List (List WriteEv) :=
  targets.map fun t => attachTargetWrites t (world t)

/-- Fan-out of `detachCommand` over the configured API servers. -/
def detachCommand (targets : List String) (world : String → TransportResult) :
    List (List WriteEv) :=
  targets.map fun t => detachTargetWrites t (world t)

/-- Fan-out of `unlockCommand` over the configured API servers. -/
def unlockCommand (targets : List String) (world : String → TransportResult) :
    List (List WriteEv) :=
  targets.map fun t => unlockTargetWrites t (world t)

/-!  Request building.  Go strings are byte sequences and
`net/url.QueryEscape` works byte by byte, so the request URLs are modelled as
lists of byte values (`Nat`, always < 256 for the bytes the encoder emits).
-/

/-- UTF-8 code points of a Lean string literal as byte values; used only for
ASCII literals, where code points and bytes coincide. -/
def ascii (s : String) : List Nat :=
  s.data.map Char.toNat

/-- Upper-case hexadecimal digit table `"0123456789ABCDEF"` of Go `net/url`,
as byte values: `0..9 ↦ '0'..'9'`, `10..15 ↦ 'A'..'F'`. -/
def hexUpper (n : Nat) : Nat :=
  if n < 10 then 48 + n else 55 + n

/-- Embedding of Go `net/url.shouldEscape(c, encodeQueryComponent)`:
alphanumeric bytes and `- _ . ~` stay, every other byte is escaped. -/
def shouldEscapeQueryByte (b : Nat) : Bool :=
  !((97 ≤ b && b ≤ 122) || (65 ≤ b && b ≤ 90) || (48 ≤ b && b ≤ 57)
    || b == 45 || b == 95 || b == 46 || b == 126)

/-- Bytes emitted by Go `net/url.QueryEscape` for one input byte: space
(32) becomes `+` (43); any other byte that must be escaped becomes
`%` (37) followed by two upper-case hex digits; unreserved bytes pass
through. -/
def escapeQueryByte (b : Nat) : List Nat :=
  if b = 32 then [43]
  else if shouldEscapeQueryByte b then [37, hexUpper (b / 16), hexUpper (b % 16)]
  else [b]

/-- Embedding of Go `net/url.QueryEscape` over the bytes of the input
string. -/
def queryEscape (s : List Nat) : List Nat :=
  s.flatMap escapeQueryByte

/-- The query part of the URL built by `attachCommand`'s
`fmt.Sprintf("%s/attach?service=%s&dest=%s&lock=%v", ...)`. -/
def attachQuery (svc dst : List Nat) (lock : Bool) : List Nat :=
  ascii "service=" ++ queryEscape svc ++ ascii "&dest=" ++ queryEscape dst
    ++ ascii "&lock=" ++ ascii (boolStr lock)

/-- The query part of the URL built by `unlockCommand`'s
`fmt.Sprintf("%s/unlock?service=%s&dest=%s", ...)`: no `lock` parameter. -/
def unlockQuery (svc dst : List Nat) : List Nat :=
  ascii "service=" ++ queryEscape svc ++ ascii "&dest=" ++ queryEscape dst

/-- Full `attach` request URL for one target. -/
def attachURL (base svc dst : List Nat) (lock : Bool) : List Nat :=
  base ++ ascii "/attach?" ++ attachQuery svc dst lock

/-- Full `detach` request URL for one target (same query shape as attach). -/
def detachURL (base svc dst : List Nat) (lock : Bool) : List Nat :=
  base ++ ascii "/detach?" ++ attachQuery svc dst lock

/-- Full `unlock` request URL for one target. -/
def unlockURL (base svc dst : List Nat) : List Nat :=
  base ++ ascii "/unlock?" ++ unlockQuery svc dst

/-- Default of the `-lock` flag of `attachCommand`:
`fs.Bool("lock", true, ...)`. -/
def attachLockDefault : Bool := true

/-- Default of the `-lock` flag of `detachCommand`:
`fs.Bool("lock", true, ...)`. -/
def detachLockDefault : Bool := true

/-- The `/info` request URL built by `fmt.Sprintf("%s/info", s.URL)`. -/
def infoRequest (url : String) : String := url ++ "/info"

/-- Requests issued by one `infoCommand` invocation: one per target. -/
def infoRequests (targets : List String) : List String :=
  targets.map fun t => infoRequest t

/-- Requests issued by one `attachCommand` invocation: one per target. -/
def attachRequests (targets : List (List Nat)) (svc dst : List Nat)
    (lock : Bool) : List (List Nat) :=
  targets.map fun t => attachURL t svc dst lock

/-- Requests issued by one `detachCommand` invocation: one per target. -/
def detachRequests (targets : List (List Nat)) (svc dst : List Nat)
    (lock : Bool) : List (List Nat) :=
  targets.map fun t => detachURL t svc dst lock

/-- Requests issued by one `unlockCommand` invocation: one per target. -/
def unlockRequests (targets : List (List Nat)) (svc dst : List Nat) :
    List (List Nat) :=
  targets.map fun t => unlockURL t svc dst

/-- Observable behaviour of one `infoCommand` goroutine beyond its writes:
the URL it requests, and whether the response body is read in full
(`ioutil.ReadAll` runs whenever the transport succeeded, before the format
switch). -/
structure TargetTrace where
  request : String
  bodyRead : Bool
  writes : List WriteEv
  deriving Repr

/-- Trace of one `infoCommand` goroutine. -/
def infoTargetTrace (format url : String) (resp : TransportResult)
    (parsed : Option Info) : TargetTrace :=
  { request := infoRequest url
  , bodyRead := match resp with
      | .success _ => true
      | .failure _ => false
  , writes := infoTargetWrites format url resp parsed }

/-!  Spec-side query parsing and percent decoding, used to characterise the
query strings the Request Builder produces. -/

/-- Split a byte list on every occurrence of the byte `c` (the usual query
parameter separator semantics). -/
def splitOnByte (c : Nat) : List Nat → List (List Nat)
  | [] => [[]]
  | b :: rest =>
    match splitOnByte c rest with
    | [] => [[]]
    | h :: t => if b = c then [] :: h :: t else (b :: h) :: t

/-- Split one `name=value` pair at the first `=` (byte 61). -/
def pairOf (p : List Nat) : List Nat × List Nat :=
  (p.takeWhile fun b => b != 61, (p.dropWhile fun b => b != 61).drop 1)

/-- Parse a query string: split on `&` (byte 38), then split each field at
its first `=`. -/
def parseQuery (q : List Nat) : List (List Nat × List Nat) :=
  (splitOnByte 38 q).map pairOf

/-- Value of an upper-case hexadecimal digit byte. -/
def hexVal (n : Nat) : Nat :=
  if n ≤ 57 then n - 48 else n - 55

/-- Spec-side inverse of `queryEscape`: `+` decodes to space, `%XY` to the
byte with hex value `XY`, every other byte to itself. -/
def percentDecode : List Nat → List Nat
  | [] => []
  | 43 :: rest => 32 :: percentDecode rest
  | 37 :: h :: l :: rest => (hexVal h * 16 + hexVal l) :: percentDecode rest
  | 37 :: rest => 37 :: rest
  | b :: rest => b :: percentDecode rest

/-!  Interleaving model for the shared output sink.  Each goroutine's write
calls are a queue; a schedule says which goroutine performs its next write
call at each step.  Every possible output of the concurrent program is
`mergeBySchedule sched queues` for some schedule. -/

/-- Merge the per-goroutine write queues according to a schedule: at each
step the named goroutine performs its next pending write call, if any. -/
def mergeBySchedule : List Nat → List (List WriteEv) → List WriteEv
  | [], _ => []
  | i :: rest, qs =>
    match qs.get? i with
    | some (w :: ws) => w :: mergeBySchedule rest (qs.set i ws)
    | _ => mergeBySchedule rest qs

/-- Concrete `Service` used for the rendering and interleaving properties:
`tcp 192.168.122.2:80 wrr` with the single destination
`192.168.122.62:80, droute, weight 100, active 0, inactive 0, detached,
not locked`. -/
def sampleService : Service :=
  { Protocol := "tcp", Address := "192.168.122.2", Port := 80, Schedule := "wrr"
  , Destinations :=
      [{ Address := "192.168.122.62", Port := 80, Forward := "droute"
       , Weight := 100, ActiveConn := 0, InactiveConn := 0
       , Detached := true, Locked := false }] }

/-- Concrete decoded report holding just `sampleService`. -/
def sampleInfo : Info := ⟨[sampleService]⟩

/-- Write sequence of the goroutine for a first target under format `text`
with a successfully decoded `sampleInfo`. -/
def writesA : List WriteEv :=
  infoTargetWrites "text" "http://lb1:8880" (.success "bodyA") (some sampleInfo)

/-- Write sequence of the goroutine for a second target, same shape. -/
def writesB : List WriteEv :=
  infoTargetWrites "text" "http://lb2:8880" (.success "bodyB") (some sampleInfo)

/-- One concrete interleaving of the two goroutines' write calls: target A
writes its URL label, then target B gets scheduled and writes its own URL
label, then A continues. -/
def interleavedOut : List WriteEv :=
  mergeBySchedule [0, 1, 0, 0, 0, 0, 0, 1, 1, 1, 1, 1] [writesA, writesB]

/-!  Helper lemmas. -/

theorem hexVal_hexUpper (n : Nat) (h : n < 16) : hexVal (hexUpper n) = n := by
  simp only [hexVal, hexUpper]
  split_ifs <;> omega

theorem mem_escapeQueryByte_ne (b x : Nat) (hx : x ∈ escapeQueryByte b) :
    x ≠ 38 ∧ x ≠ 61 := by
  simp only [escapeQueryByte] at hx
  split_ifs at hx with h32 hesc
  · simp only [List.mem_singleton] at hx
    omega
  · simp only [List.mem_cons, List.mem_singleton, List.not_mem_nil, or_false] at hx
    rcases hx with rfl | rfl | rfl
    · omega
    · simp only [hexUpper]; split_ifs <;> omega
    · simp only [hexUpper]; split_ifs <;> omega
  · simp only [List.mem_singleton] at hx
    subst hx
    simp only [shouldEscapeQueryByte, Bool.not_eq_true', Bool.not_eq_false,
      Bool.or_eq_true, Bool.and_eq_true, decide_eq_true_eq, beq_iff_eq] at hesc
    omega

theorem not_mem_queryEscape_amp (s : List Nat) : 38 ∉ queryEscape s := by
  intro hmem
  rw [queryEscape, List.mem_flatMap] at hmem
  obtain ⟨b, _, hb⟩ := hmem
  exact (mem_escapeQueryByte_ne b 38 hb).1 rfl

theorem not_mem_queryEscape_eq (s : List Nat) : 61 ∉ queryEscape s := by
  intro hmem
  rw [queryEscape, List.mem_flatMap] at hmem
  obtain ⟨b, _, hb⟩ := hmem
  exact (mem_escapeQueryByte_ne b 61 hb).2 rfl

theorem splitOnByte_ne_nil (c : Nat) (l : List Nat) : splitOnByte c l ≠ [] := by
  cases l with
  | nil => simp [splitOnByte]
  | cons b rest =>
    simp only [splitOnByte]
    cases h : splitOnByte c rest with
    | nil => simp
    | cons hd tl =>
      split
      · simp
      · split <;> simp

theorem splitOnByte_of_not_mem (c : Nat) (xs : List Nat) (h : c ∉ xs) :
    splitOnByte c xs = [xs] := by
  induction xs with
  | nil => rfl
  | cons b rest ih =>
    have hb : ¬b = c := fun e => h (e ▸ List.mem_cons_self b rest)
    have hr := ih fun hm => h (List.mem_cons_of_mem _ hm)
    simp only [splitOnByte, hr]
    simp [hb]

theorem splitOnByte_append (c : Nat) (xs ys : List Nat) (h : c ∉ xs) :
    splitOnByte c (xs ++ c :: ys) = xs :: splitOnByte c ys := by
  induction xs with
  | nil =>
    obtain ⟨hd, tl, e⟩ := List.exists_cons_of_ne_nil (splitOnByte_ne_nil c ys)
    simp [splitOnByte, e]
  | cons b rest ih =>
    have hb : ¬b = c := fun e => h (e ▸ List.mem_cons_self b rest)
    have hr := ih fun hm => h (List.mem_cons_of_mem _ hm)
    simp only [List.cons_append, splitOnByte, List.append_eq]
    rw [hr]
    simp [hb]

theorem takeWhile_append_stop (p : Nat → Bool) (xs ys : List Nat) (y : Nat)
    (hxs : ∀ x ∈ xs, p x = true) (hy : p y = false) :
    (xs ++ y :: ys).takeWhile p = xs := by
  induction xs with
  | nil => simp [List.takeWhile_cons, hy]
  | cons b rest ih =>
    have hb := hxs b (List.mem_cons_self b rest)
    simp only [List.cons_append, List.takeWhile_cons, hb, if_true]
    rw [ih fun x hx => hxs x (List.mem_cons_of_mem _ hx)]

theorem dropWhile_append_stop (p : Nat → Bool) (xs ys : List Nat) (y : Nat)
    (hxs : ∀ x ∈ xs, p x = true) (hy : p y = false) :
    (xs ++ y :: ys).dropWhile p = y :: ys := by
  induction xs with
  | nil => simp [List.dropWhile_cons, hy]
  | cons b rest ih =>
    have hb := hxs b (List.mem_cons_self b rest)
    simp only [List.cons_append, List.dropWhile_cons, hb, if_true]
    exact ih fun x hx => hxs x (List.mem_cons_of_mem _ hx)

theorem pairOf_append (name value : List Nat) (h : 61 ∉ name) :
    pairOf (name ++ 61 :: value) = (name, value) := by
  have hxs : ∀ x ∈ name, (x != 61) = true := by
    intro x hx
    simp only [bne_iff_ne, ne_eq]
    exact fun e => h (e ▸ hx)
  simp only [pairOf]
  rw [takeWhile_append_stop _ _ _ _ hxs (by simp),
    dropWhile_append_stop _ _ _ _ hxs (by simp)]
  simp

/-!  Claim theorems. -/

/-- C5: for the `info` subcommand with format `json`, the decoder is the
identity: the goroutine performs a single stdout write consisting of the
target's URL label followed by the response bytes verbatim, so the body
appears byte-for-byte in the rendered block, preceded by the label. -/
theorem info_json_identity_roundtrip (url data : String) (parsed : Option Info) :
    infoTargetWrites "json" url (.success data) parsed
      = [⟨Sink.stdout, url ++ ":\n" ++ data ++ "\n"⟩]
    ∧ stdoutOf (infoTargetWrites "json" url (.success data) parsed)
      = (url ++ ":\n") ++ data ++ "\n"
    ∧ ∃ pre post,
        stdoutOf (infoTargetWrites "json" url (.success data) parsed)
          = pre ++ data ++ post ∧ pre = url ++ ":\n" ∧ post = "\n" := by
  refine ⟨rfl, ?_, ⟨url ++ ":\n", "\n", ?_, rfl, rfl⟩⟩ <;>
    simp [infoTargetWrites, stdoutOf, String.append_assoc]

set_option maxRecDepth 8192 in
/-- C6: for the `info` subcommand with format `text`, the sample service
`tcp 192.168.122.2:80 wrr` with its single destination renders to exactly the
two fixed header lines, the service header row, and one destination row with
left-justified columns of widths 28 (host:port), 7 (forward), 6 (weight),
10 (active), 9 (inactive) and 8 (detached); a service with zero destinations
contributes only its header row. -/
theorem info_text_rendering_deterministic (url body : String) :
    infoTargetWrites "text" url (.success body) (some sampleInfo)
      = [⟨Sink.stdout, url ++ ":\n"⟩,
         ⟨Sink.stdout, infoHeader1⟩,
         ⟨Sink.stdout, infoHeader2⟩,
         ⟨Sink.stdout, "tcp  192.168.122.2:80 wrr\n"⟩,
         ⟨Sink.stdout, "  -> 192.168.122.62:80            droute  100    0          0         true     false\n"⟩,
         ⟨Sink.stdout, "\n"⟩]
    ∧ renderInfoReport sampleInfo
      = "Prot LocalAddress:Port Scheduler Flags\n"
        ++ "  -> RemoteAddress:Port           Forward Weight ActiveConn InActConn Detached Locked\n"
        ++ "tcp  192.168.122.2:80 wrr\n"
        ++ "  -> 192.168.122.62:80            droute  100    0          0         true     false\n"
    ∧ (∀ proto addr port sched,
        serviceWrites ⟨proto, addr, port, sched, []⟩
          = [⟨Sink.stdout, serviceRow ⟨proto, addr, port, sched, []⟩⟩]) := by
  refine ⟨?_, by decide, fun proto addr port sched => rfl⟩
  show _ = _
  norm_num [infoTargetWrites, sampleInfo, sampleService, serviceWrites,
    serviceRow, destinationRow, padRight, joinHostPort, boolStr]
  decide

/-- C10: for `unlock`, a target's emitted output is exactly the raw response
body, with no URL label line and no added trailing newline, whereas `attach`,
`detach`, and `info` (both formats) prefix each target's output with the
target's URL followed by a colon and a newline. -/
theorem unlock_output_raw_unlabeled (url data : String) (parsed : Option Info) :
    unlockTargetWrites url (.success data) = [⟨Sink.stdout, data⟩]
    ∧ stdoutOf (unlockTargetWrites url (.success data)) = data
    ∧ stdoutOf (attachTargetWrites url (.success data))
      = (url ++ ":\n") ++ (data ++ "\n")
    ∧ stdoutOf (detachTargetWrites url (.success data))
      = (url ++ ":\n") ++ (data ++ "\n")
    ∧ stdoutOf (infoTargetWrites "json" url (.success data) parsed)
      = (url ++ ":\n") ++ (data ++ "\n")
    ∧ (∃ rest, stdoutOf (infoTargetWrites "text" url (.success data) parsed)
        = (url ++ ":\n") ++ rest) := by
  refine ⟨rfl, ?_, ?_, ?_, ?_, ?_⟩
  · simp [unlockTargetWrites, stdoutOf]
  · simp [attachTargetWrites, stdoutOf, String.append_assoc]
  · simp [detachTargetWrites, stdoutOf, String.append_assoc]
  · simp [infoTargetWrites, stdoutOf, String.append_assoc]
  · cases parsed with
    | none => exact ⟨_, rfl⟩
    | some info => exact ⟨_, rfl⟩

/-- C2: dispatch issues exactly one request per configured target, for every
subcommand; each request is the target's base URL followed by a suffix that
depends only on the subcommand parameters; dispatch of an empty target set is
a no-op; and every fan-out returns one completed outcome per target (the
`WaitGroup` barrier), whatever each target's transport result is. -/
theorem dispatch_issues_one_request_per_target (targets : List String)
    (format : String) (world : String → TransportResult)
    (parsed : String → Option Info) (btargets : List (List Nat))
    (svc dst : List Nat) (lock : Bool) (i : Nat) :
    (infoRequests targets).length = targets.length
    ∧ (infoRequests targets)[i]? = (targets[i]?).map (fun t => t ++ "/info")
    ∧ (attachRequests btargets svc dst lock).length = btargets.length
    ∧ (attachRequests btargets svc dst lock)[i]?
      = (btargets[i]?).map (fun t => t ++ (ascii "/attach?" ++ attachQuery svc dst lock))
    ∧ (detachRequests btargets svc dst lock)[i]?
      = (btargets[i]?).map (fun t => t ++ (ascii "/detach?" ++ attachQuery svc dst lock))
    ∧ (unlockRequests btargets svc dst)[i]?
      = (btargets[i]?).map (fun t => t ++ (ascii "/unlock?" ++ unlockQuery svc dst))
    ∧ (infoCommand targets format world parsed).length = targets.length
    ∧ (attachCommand targets world).length = targets.length
    ∧ (detachCommand targets world).length = targets.length
    ∧ (unlockCommand targets world).length = targets.length
    ∧ infoCommand [] format world parsed = []
    ∧ infoRequests [] = [] := by
  refine ⟨?_, ?_, ?_, ?_, ?_, ?_, ?_, ?_, ?_, ?_, rfl, rfl⟩ <;>
    simp [infoRequests, infoRequest, attachRequests, detachRequests,
      unlockRequests, attachURL, detachURL, unlockURL, infoCommand,
      attachCommand, detachCommand, unlockCommand, List.getElem?_map,
      List.append_assoc]

/-- C3: a transport failure on one target produces exactly one write for that
target, on stderr (a diagnostic channel distinct from the stdout report),
contributing nothing to stdout; each target's outcome in the fan-out is a
function of that target alone, so a failure neither aborts, omits, nor alters
any other target's outcome; and the command still completes with one outcome
per target. -/
theorem transport_failure_isolated_per_target (format url msg : String)
    (parsed : Option Info) (targets : List String)
    (world : String → TransportResult) (parsedf : String → Option Info)
    (i : Nat) :
    infoTargetWrites format url (.failure msg) parsed = [transportFailWrite msg]
    ∧ attachTargetWrites url (.failure msg) = [transportFailWrite msg]
    ∧ detachTargetWrites url (.failure msg) = [transportFailWrite msg]
    ∧ unlockTargetWrites url (.failure msg) = [transportFailWrite msg]
    ∧ (transportFailWrite msg).sink = Sink.stderr
    ∧ stdoutOf [transportFailWrite msg] = ""
    ∧ (infoCommand targets format world parsedf)[i]?
      = (targets[i]?).map (fun t => infoTargetWrites format t (world t) (parsedf t))
    ∧ (infoCommand targets format world parsedf).length = targets.length
    ∧ (attachCommand targets world)[i]?
      = (targets[i]?).map (fun t => attachTargetWrites t (world t))
    ∧ (unlockCommand targets world)[i]?
      = (targets[i]?).map (fun t => unlockTargetWrites t (world t)) := by
  refine ⟨rfl, rfl, rfl, rfl, rfl, rfl, ?_, ?_, ?_, ?_⟩ <;>
    simp [infoCommand, attachCommand, unlockCommand, List.getElem?_map]

/-- C4 counterexample: with format `text` and a body that fails to decode,
the target's stdout block is not omitted and carries no failure marker: it is
nonempty and byte-identical to the block of a target whose body decoded
successfully to an empty report. -/
theorem decode_failure_block_still_emitted_cex :
    stdoutOf (infoTargetWrites "text" "http://lb1:8880" (.success "not json") none) ≠ ""
    ∧ stdoutOf (infoTargetWrites "text" "http://lb1:8880" (.success "not json") none)
      = stdoutOf (infoTargetWrites "text" "http://lb1:8880" (.success "ok") (some ⟨[]⟩)) := by
  decide

/-- C4 amended: when the body fails to decode, the goroutine reports the
decode error on the error-log channel but does not return: it still emits the
target's block, rendered from the zero-value report (URL label, the two
header lines, no service rows, final blank line); every other target's block
remains a function of that target's own response alone. -/
theorem decode_failure_logged_zero_value_block (url data : String)
    (targets : List String) (world : String → TransportResult)
    (parsedf : String → Option Info) (format : String) (i : Nat) :
    infoTargetWrites "text" url (.success data) none
      = [unmarshalErrLog,
         ⟨Sink.stdout, url ++ ":\n"⟩,
         ⟨Sink.stdout, infoHeader1⟩,
         ⟨Sink.stdout, infoHeader2⟩,
         ⟨Sink.stdout, "\n"⟩]
    ∧ unmarshalErrLog.sink = Sink.logErr
    ∧ stdoutOf (infoTargetWrites "text" url (.success data) none)
      = stdoutOf (infoTargetWrites "text" url (.success data) (some ⟨[]⟩))
    ∧ (infoCommand targets format world parsedf)[i]?
      = (targets[i]?).map (fun t => infoTargetWrites format t (world t) (parsedf t)) := by
  refine ⟨rfl, rfl, rfl, ?_⟩
  simp [infoCommand, List.getElem?_map]

/-- C9: with a format other than the exact strings `text` and `json`, the
`info` goroutine still issues its request and reads the body (the read
happens before the format switch), but the switch matches no case, so the
goroutine prints nothing at all and the report stays empty. -/
theorem info_unknown_format_silent (format : String)
    (h1 : format ≠ "text") (h2 : format ≠ "json") (url data : String)
    (parsed : Option Info) (resp : TransportResult) :
    (infoTargetTrace format url (.success data) parsed).request = url ++ "/info"
    ∧ (infoTargetTrace format url (.success data) parsed).bodyRead = true
    ∧ (infoTargetTrace format url (.success data) parsed).writes = []
    ∧ stdoutOf (infoTargetTrace format url resp parsed).writes = "" := by
  have hw : ∀ d : String, infoTargetWrites format url (.success d) parsed = [] := by
    intro d
    unfold infoTargetWrites
    split <;> simp_all
  refine ⟨rfl, rfl, hw data, ?_⟩
  cases resp with
  | failure m => rfl
  | success d =>
    show stdoutOf (infoTargetWrites format url (.success d) parsed) = ""
    rw [hw d]
    rfl

/-- C9 witness: at format string `JSON` (which differs from both `text` and
`json`), a successful target produces no writes, yet its request was issued
and its body read. -/
theorem info_unknown_format_silent_witness :
    ("JSON" ≠ "text" ∧ "JSON" ≠ "json")
    ∧ (infoTargetTrace "JSON" "http://lb3:8880" (.success "payload") none).writes = []
    ∧ (infoTargetTrace "JSON" "http://lb3:8880" (.success "payload") none).bodyRead = true
    ∧ (infoTargetTrace "JSON" "http://lb3:8880" (.success "payload") none).request
      = "http://lb3:8880" ++ "/info" := by
  have h := info_unknown_format_silent "JSON" (by decide) (by decide)
    "http://lb3:8880" "payload" none (.success "payload")
  exact ⟨⟨by decide, by decide⟩, h.2.2.1, h.2.1, h.1⟩

/-!  Query-string characterisation helpers for C7 and C8. -/

theorem amp_not_mem_field (name value : List Nat) (hn : 38 ∉ name)
    (hv : 38 ∉ value) : 38 ∉ name ++ 61 :: value := by
  intro hm
  rcases List.mem_append.1 hm with h1 | h2
  · exact hn h1
  · rcases List.mem_cons.1 h2 with h3 | h4
    · omega
    · exact hv h4

theorem attachQuery_shape (svc dst : List Nat) (lock : Bool) :
    attachQuery svc dst lock
      = (ascii "service" ++ 61 :: queryEscape svc)
        ++ 38 :: ((ascii "dest" ++ 61 :: queryEscape dst)
        ++ 38 :: (ascii "lock" ++ 61 :: ascii (boolStr lock))) := by
  have e1 : ascii "service=" = ascii "service" ++ [61] := rfl
  have e2 : ascii "&dest=" = 38 :: (ascii "dest" ++ [61]) := rfl
  have e3 : ascii "&lock=" = 38 :: (ascii "lock" ++ [61]) := rfl
  rw [attachQuery, e1, e2, e3]
  simp [List.append_assoc]

theorem unlockQuery_shape (svc dst : List Nat) :
    unlockQuery svc dst
      = (ascii "service" ++ 61 :: queryEscape svc)
        ++ 38 :: (ascii "dest" ++ 61 :: queryEscape dst) := by
  have e1 : ascii "service=" = ascii "service" ++ [61] := rfl
  have e2 : ascii "&dest=" = 38 :: (ascii "dest" ++ [61]) := rfl
  rw [unlockQuery, e1, e2]
  simp [List.append_assoc]

theorem parse_attachQuery (svc dst : List Nat) (lock : Bool) :
    parseQuery (attachQuery svc dst lock)
      = [(ascii "service", queryEscape svc), (ascii "dest", queryEscape dst),
         (ascii "lock", ascii (boolStr lock))] := by
  rw [parseQuery, attachQuery_shape]
  rw [splitOnByte_append _ _ _
      (amp_not_mem_field _ _ (by decide) (not_mem_queryEscape_amp svc)),
    splitOnByte_append _ _ _
      (amp_not_mem_field _ _ (by decide) (not_mem_queryEscape_amp dst)),
    splitOnByte_of_not_mem _ _
      (amp_not_mem_field _ _ (by decide) (by cases lock <;> decide))]
  simp only [List.map_cons, List.map_nil]
  rw [pairOf_append _ _ (by decide), pairOf_append _ _ (by decide),
    pairOf_append _ _ (by decide)]

theorem parse_unlockQuery (svc dst : List Nat) :
    parseQuery (unlockQuery svc dst)
      = [(ascii "service", queryEscape svc), (ascii "dest", queryEscape dst)] := by
  rw [parseQuery, unlockQuery_shape]
  rw [splitOnByte_append _ _ _
      (amp_not_mem_field _ _ (by decide) (not_mem_queryEscape_amp svc)),
    splitOnByte_of_not_mem _ _
      (amp_not_mem_field _ _ (by decide) (not_mem_queryEscape_amp dst))]
  simp only [List.map_cons, List.map_nil]
  rw [pairOf_append _ _ (by decide), pairOf_append _ _ (by decide)]

/-- C7: with the `-lock` flag left at its default, the `attach` and `detach`
query strings carry exactly the parameters `service`, `dest` and
`lock=true`; the `unlock` query string carries exactly `service` and `dest`
and no `lock` parameter. -/
theorem lock_param_default_true_unlock_none (svc dst : List Nat) :
    parseQuery (attachQuery svc dst attachLockDefault)
      = [(ascii "service", queryEscape svc), (ascii "dest", queryEscape dst),
         (ascii "lock", ascii "true")]
    ∧ parseQuery (attachQuery svc dst detachLockDefault)
      = [(ascii "service", queryEscape svc), (ascii "dest", queryEscape dst),
         (ascii "lock", ascii "true")]
    ∧ parseQuery (unlockQuery svc dst)
      = [(ascii "service", queryEscape svc), (ascii "dest", queryEscape dst)]
    ∧ (parseQuery (unlockQuery svc dst)).map Prod.fst
      = [ascii "service", ascii "dest"] := by
  refine ⟨parse_attachQuery svc dst true, parse_attachQuery svc dst true, ?_, ?_⟩
  · exact parse_unlockQuery svc dst
  · rw [parse_unlockQuery svc dst]
    rfl

theorem percentDecode_plus (rest : List Nat) :
    percentDecode (43 :: rest) = 32 :: percentDecode rest := rfl

theorem percentDecode_pct (h l : Nat) (rest : List Nat) :
    percentDecode (37 :: h :: l :: rest)
      = (hexVal h * 16 + hexVal l) :: percentDecode rest := rfl

theorem percentDecode_other (b : Nat) (rest : List Nat) (h43 : b ≠ 43)
    (h37 : b ≠ 37) : percentDecode (b :: rest) = b :: percentDecode rest := by
  rw [percentDecode.eq_def]
  split <;> simp_all

theorem escapeQueryByte_esc (b : Nat) (h32 : b ≠ 32)
    (hesc : shouldEscapeQueryByte b = true) :
    escapeQueryByte b = [37, hexUpper (b / 16), hexUpper (b % 16)] := by
  simp [escapeQueryByte, h32, hesc]

theorem escapeQueryByte_unres (b : Nat) (h32 : b ≠ 32)
    (hesc : shouldEscapeQueryByte b = false) : escapeQueryByte b = [b] := by
  simp [escapeQueryByte, h32, hesc]

theorem queryEscape_decode (s : List Nat) (h : ∀ b ∈ s, b < 256) :
    percentDecode (queryEscape s) = s := by
  induction s with
  | nil => rfl
  | cons b rest ih =>
    have hb : b < 256 := h b (List.mem_cons_self b rest)
    have hrest := ih fun x hx => h x (List.mem_cons_of_mem _ hx)
    rw [queryEscape, List.flatMap_cons]
    show percentDecode (escapeQueryByte b ++ rest.flatMap escapeQueryByte) = b :: rest
    by_cases h32 : b = 32
    · subst h32
      rw [show escapeQueryByte 32 = [43] from rfl, List.singleton_append,
        percentDecode_plus]
      rw [show rest.flatMap escapeQueryByte = queryEscape rest from rfl, hrest]
    · cases hesc : shouldEscapeQueryByte b with
      | true =>
        rw [escapeQueryByte_esc b h32 hesc]
        show percentDecode (37 :: hexUpper (b / 16) :: hexUpper (b % 16)
          :: rest.flatMap escapeQueryByte) = b :: rest
        rw [percentDecode_pct, hexVal_hexUpper (b / 16) (by omega),
          hexVal_hexUpper (b % 16) (by omega),
          show b / 16 * 16 + b % 16 = b by omega]
        rw [show rest.flatMap escapeQueryByte = queryEscape rest from rfl, hrest]
      | false =>
        have hranges : ¬b = 43 ∧ ¬b = 37 := by
          simp [shouldEscapeQueryByte] at hesc
          omega
        rw [escapeQueryByte_unres b h32 hesc, List.singleton_append,
          percentDecode_other b _ hranges.1 hranges.2]
        rw [show rest.flatMap escapeQueryByte = queryEscape rest from rfl, hrest]

/-- C8: in every `attach`, `detach` and `unlock` request the value placed in
each query-value slot is exactly `queryEscape` of the operator-supplied
bytes (the empty string passing through unchanged), and `queryEscape` is a
faithful percent-encoding: decoding its output recovers the supplied bytes
for every byte string. -/
theorem query_values_percent_encoded (svc dst : List Nat) (lock : Bool) :
    (parseQuery (attachQuery svc dst lock)).map Prod.snd
      = [queryEscape svc, queryEscape dst, ascii (boolStr lock)]
    ∧ (parseQuery (unlockQuery svc dst)).map Prod.snd
      = [queryEscape svc, queryEscape dst]
    ∧ detachURL dst svc dst lock
      = dst ++ ascii "/detach?" ++ attachQuery svc dst lock
    ∧ queryEscape [] = []
    ∧ (∀ s : List Nat, (∀ b ∈ s, b < 256) → percentDecode (queryEscape s) = s) := by
  refine ⟨?_, ?_, rfl, rfl, fun s h => queryEscape_decode s h⟩
  · rw [parse_attachQuery svc dst lock]
    rfl
  · rw [parse_unlockQuery svc dst]
    rfl

/-- C8 witness: the concrete destination address `10.0.0.1:80` round-trips
through `queryEscape` (where the colon becomes `%3A`). -/
theorem query_values_percent_encoded_witness :
    (∀ b ∈ ascii "10.0.0.1:80", b < 256)
    ∧ percentDecode (queryEscape (ascii "10.0.0.1:80")) = ascii "10.0.0.1:80"
    ∧ queryEscape (ascii "10.0.0.1:80") = ascii "10.0.0.1%3A80" :=
  ⟨by decide,
   (query_values_percent_encoded [] [] true).2.2.2.2 (ascii "10.0.0.1:80") (by decide),
   by decide⟩

/-- C1: the claim that each target's block reaches the shared sink as one
atomic write fails on the code: the `text` branch of `infoCommand` performs
six separate stdout writes per target from concurrent goroutines, and the
exhibited schedule interleaves target B's URL-label write between target A's
URL-label write and A's header write, so the merged output is not a
concatenation of the two blocks in either order. -/
theorem info_text_block_not_atomic :
    writesA.length = 6
    ∧ interleavedOut.length = writesA.length + writesB.length
    ∧ interleavedOut[0]? = some ⟨Sink.stdout, "http://lb1:8880:\n"⟩
    ∧ interleavedOut[1]? = some ⟨Sink.stdout, "http://lb2:8880:\n"⟩
    ∧ interleavedOut[2]? = some ⟨Sink.stdout, infoHeader1⟩
    ∧ (⟨Sink.stdout, "http://lb1:8880:\n"⟩ : WriteEv) ∈ writesA
    ∧ (⟨Sink.stdout, infoHeader1⟩ : WriteEv) ∈ writesA
    ∧ (⟨Sink.stdout, "http://lb2:8880:\n"⟩ : WriteEv) ∈ writesB
    ∧ interleavedOut ≠ writesA ++ writesB
    ∧ interleavedOut ≠ writesB ++ writesA := by
  decide

end Goloba
